import Mathlib

/-!
Shallow embedding of the resilience / streaming core of the
`assist-chat-api` service (NestJS + TypeScript), for checking its
natural-language specification against the code.

Embedded source files:
* `src/ai/circuit-breaker.service.ts` — `CircuitBreakerService`
* `src/ai/ai.service.ts` — `AIService` (`streamCompletion`,
  `streamWithRetry`, `executeStream`, `handleOpenAIError`,
  `estimateTokens`, `fitToContextWindow`)
* `src/chat/chat.service.ts` — `ChatService.processMessage`,
  `getOrCreateSession`, `createSession`, `createMessage`

Timestamps are modelled as `Nat` (milliseconds, as produced by
`Date.now()`); identifiers produced by `randomUUID()` are passed in as
explicit arguments, and the nondeterministic upstream (OpenAI) is
modelled as an explicit outcome argument.
-/

namespace AssistChat

/-- Circuit-breaker states, from `enums/circuit-state.enum.ts`
(values `CLOSED`, `OPEN`, `HALF_OPEN`, as used throughout
`circuit-breaker.service.ts` and its tests). -/
inductive CircuitState
  | CLOSED
  | OPEN
  | HALF_OPEN
deriving DecidableEq, Repr

/-- Configuration of `CircuitBreakerService` (interface
`CircuitBreakerConfig`). -/
structure CircuitBreakerConfig where
  failureThreshold : Nat
  successThreshold : Nat
  timeout : Nat
deriving Repr

/-- Constructor defaults: `failureThreshold ?? 5`, `successThreshold ?? 2`,
`timeout ?? 60000`. -/
def defaultCBConfig : CircuitBreakerConfig :=
  { failureThreshold := 5, successThreshold := 2, timeout := 60000 }

/-- Mutable fields of `CircuitBreakerService`: `state`, `failureCount`,
`successCount`, `lastFailureTime`. -/
structure CBState where
  state : CircuitState
  failureCount : Nat
  successCount : Nat
  lastFailureTime : Option Nat
deriving DecidableEq, Repr

/-- Initial field values of a freshly constructed `CircuitBreakerService`:
`CLOSED`, counters zero, no failure recorded. -/
def CBState.initial : CBState :=
  { state := .CLOSED, failureCount := 0, successCount := 0,
    lastFailureTime := none }

/-- Source `CircuitBreakerService.onSuccess`: zeroes `failureCount`; in
`HALF_OPEN`, increments `successCount` and transitions to `CLOSED`
(zeroing `successCount`) once `successThreshold` is reached. -/
def onSuccess (cfg : CircuitBreakerConfig) (s : CBState) : CBState :=
  let s := { s with failureCount := 0 }
  if s.state = .HALF_OPEN then
    let succ := s.successCount + 1
    if succ ≥ cfg.successThreshold then
      { s with state := .CLOSED, successCount := 0 }
    else
      { s with successCount := succ }
  else
    s

/-- Source `CircuitBreakerService.onFailure`: increments `failureCount`, records
`lastFailureTime := Date.now()`, zeroes `successCount`, and transitions to
`OPEN` when `failureCount` reaches `failureThreshold`. -/
def onFailure (cfg : CircuitBreakerConfig) (s : CBState) (now : Nat) :
    CBState :=
  let s := { s with failureCount := s.failureCount + 1,
                    lastFailureTime := some now, successCount := 0 }
  if s.failureCount ≥ cfg.failureThreshold then
    { s with state := .OPEN }
  else
    s

/-- Source `CircuitBreakerService.shouldAttemptReset`: `lastFailureTime` is set
and `Date.now() - lastFailureTime >= timeout`. The JS subtraction is over
actual integers, so the comparison is rendered without `Nat` truncation
as `t + timeout ≤ now`. -/
def shouldAttemptReset (cfg : CircuitBreakerConfig) (s : CBState)
    (now : Nat) : Bool :=
  match s.lastFailureTime with
  | none => false
  | some t => t + cfg.timeout ≤ now

/-- Result of one `CircuitBreakerService.execute` call: either the
protected operation ran (and succeeded or failed), or the breaker
fast-failed by throwing `CircuitBreakerOpenException` — which carries the
current `failureCount` (`new CircuitBreakerOpenException(undefined,
this.failureCount)`). -/
inductive ExecResult
  | opSuccess
  | opFailure
  | fastFail (failureCount : Nat)
deriving DecidableEq, Repr

/-- Outcome of `execute`: the result, whether the protected operation was
invoked at all, and the breaker state afterwards. -/
structure ExecOutcome where
  result : ExecResult
  invoked : Bool
  after : CBState
deriving DecidableEq, Repr

/-- Source `CircuitBreakerService.execute` at time `now`, where `opOk` is the
outcome the protected operation would produce if invoked (`true` =
resolves, `false` = rejects/throws). Follows the source: in `OPEN`,
either transition to `HALF_OPEN` when `shouldAttemptReset`, or throw
`CircuitBreakerOpenException` without invoking the operation; otherwise
invoke the operation and run `onSuccess` / `onFailure`. -/
def execute (cfg : CircuitBreakerConfig) (s : CBState) (now : Nat)
    (opOk : Bool) : ExecOutcome :=
  if s.state = .OPEN ∧ ¬ shouldAttemptReset cfg s now then
    { result := .fastFail s.failureCount, invoked := false, after := s }
  else
    let s := if s.state = .OPEN then { s with state := .HALF_OPEN } else s
    if opOk then
      { result := .opSuccess, invoked := true, after := onSuccess cfg s }
    else
      { result := .opFailure, invoked := true, after := onFailure cfg s now }

/-- Source `CircuitBreakerService.reset`: forces `CLOSED`, zero counters, clears
the last-failure timestamp. -/
def CBState.reset : CBState := CBState.initial

/-- Folds a sequence of `execute` calls (each given as wall-clock time and
operation outcome) over the breaker state, starting from `CBState.initial`
— the shape of the unit tests in `circuit-breaker.service.spec.ts`. -/
def cbRun (cfg : CircuitBreakerConfig) (events : List (Nat × Bool)) :
    CBState :=
  events.foldl (fun s e => (execute cfg s e.1 e.2).after) CBState.initial

/-- Message roles, from `common/enums/message-role.enum.ts`
(`USER = 'user'`, `ASSISTANT = 'assistant'`, `SYSTEM = 'system'`). -/
inductive MessageRole
  | USER
  | ASSISTANT
  | SYSTEM
deriving DecidableEq, Repr

/-- Backend `Message` (`common/interfaces/message.interface.ts`):
`{id, role, content, timestamp, sessionId?}`. -/
structure Message where
  id : String
  role : MessageRole
  content : String
  timestamp : Nat
  sessionId : Option String
deriving DecidableEq, Repr

/-- Source `AIService.estimateTokens`: `Math.ceil(text.length / 4)`. -/
def estimateTokens (text : String) : Nat :=
  (text.length + 3) / 4

/-- Loop body of `AIService.fitToContextWindow`: walks the input from most
recent to oldest (the caller passes `messages.reverse`), skipping system
messages, and `unshift`s each message whose estimated cost still fits;
`break`s — returning the accumulator — at the first message that would
exceed `maxContextTokens`. Returns the running `totalTokens` together
with `fittedMessages`. -/
def fitLoop (maxContextTokens : Nat) :
    List Message → Nat → List Message → Nat × List Message
  | [], totalTokens, fitted => (totalTokens, fitted)
  | m :: rest, totalTokens, fitted =>
    if m.role = .SYSTEM then
      fitLoop maxContextTokens rest totalTokens fitted
    else
      let messageTokens := estimateTokens m.content
      if totalTokens + messageTokens > maxContextTokens then
        (totalTokens, fitted)
      else
        fitLoop maxContextTokens rest (totalTokens + messageTokens)
          (m :: fitted)

/-- Source `AIService.fitToContextWindow`: first pushes the first system message
found in `messages` (if any), counting its estimated tokens, then runs the
most-recent-first loop; each kept message is `unshift`ed in front of the
accumulator (so the system message, when present, ends up last). -/
def fitToContextWindow (messages : List Message)
    (maxContextTokens : Nat) : List Message :=
  match messages.find? (fun m => m.role = .SYSTEM) with
  | some systemMessage =>
    (fitLoop maxContextTokens messages.reverse
      (estimateTokens systemMessage.content) [systemMessage]).2
  | none =>
    (fitLoop maxContextTokens messages.reverse 0 []).2

/-- Total estimated token cost of a list of messages, as computed in the
AIService unit tests: `fitted.reduce((sum, msg) => sum +
estimateTokens(msg.content), 0)`. -/
def sumTokens (messages : List Message) : Nat :=
  messages.foldl (fun sum m => sum + estimateTokens m.content) 0

/-- Domain errors produced by `AIService.handleOpenAIError`:
`AIRateLimitException` (429), `AIAuthenticationException` (401),
`AIUnexpectedErrorException` (any other response status), or the raw
error rethrown when it carries no `response` field. -/
inductive AIError
  | rateLimit
  | auth
  | unexpected (status : Nat)
  | raw
deriving DecidableEq, Repr

/-- Source `AIService.handleOpenAIError` keyed by `error.response?.status`:
`429 → AIRateLimitException`, `401 → AIAuthenticationException`,
`500/502/503` and the `default` branch both →
`AIUnexpectedErrorException(message, status)`; an error without a
`response` is rethrown unchanged. -/
def handleOpenAIError (responseStatus : Option Nat) : AIError :=
  match responseStatus with
  | some 429 => .rateLimit
  | some 401 => .auth
  | some s => .unexpected s
  | none => .raw

/-- One chunk of the upstream completion stream, with the two fields
`AIService.executeStream` inspects: `chunk.choices[0]?.delta?.content`
and `chunk.choices[0]?.finish_reason`. -/
structure StreamChunk where
  content : Option String
  finishReason : Option String
deriving DecidableEq, Repr

/-- JS truthiness of an optional string (`undefined`, `null` and `""` are
falsy), as used by `if (content)` and `if (chunk.choices[0]?.finish_reason)`
in `executeStream`. -/
def jsTruthy (o : Option String) : Bool :=
  match o with
  | none => false
  | some s => !s.isEmpty

/-- Fragments emitted on the subject by the chunk loop of
`AIService.executeStream`: each chunk's `content` is emitted via
`stream.next(content)` only when truthy, and a truthy `finish_reason`
breaks out of the loop after that chunk's emission. -/
def emittedFragments : List StreamChunk → List String
  | [] => []
  | c :: rest =>
    let here : List String :=
      match c.content with
      | some s => if s.isEmpty then [] else [s]
      | none => []
    if jsTruthy c.finishReason then here
    else here ++ emittedFragments rest

/-- Fragments observed on the observable returned by
`AIService.streamCompletion` across a sequence of upstream attempts: the
retry loop reuses one `Subject`, so the attempts' emissions concatenate. -/
def streamEmitted (attempts : List (List StreamChunk)) : List String :=
  (attempts.map emittedFragments).flatten

/-- Source `AIService.streamWithRetry`: invokes `executeStream` (the upstream
stub), whose outcome on the `attempt`-th invocation is `stub attempt`
(`none` = the attempt succeeded, `some e` = it threw `e`); on failure it
retries with `attempt + 1` while `attempt < maxRetries`, else rethrows.
Returns the surfaced error (`none` = overall success) together with the
number of stub invocations performed. -/
def streamWithRetryGo (stub : Nat → Option AIError) :
    Nat → Nat → Option AIError × Nat
  | fuel, attempt =>
    match stub attempt with
    | none => (none, 1)
    | some error =>
      match fuel with
      | 0 => (some error, 1)
      | fuel' + 1 =>
        let r := streamWithRetryGo stub fuel' (attempt + 1)
        (r.1, r.2 + 1)

/-- Entry point of the retry loop. The source guard `attempt <
maxRetries` holds exactly when the remaining fuel `maxRetries - attempt`
is positive, and each recursive call `attempt + 1` decrements it, so the
fuel-indexed recursion above computes the same function as the source's
recursion on `attempt`. -/
def streamWithRetry (stub : Nat → Option AIError) (maxRetries : Nat)
    (attempt : Nat) : Option AIError × Nat :=
  streamWithRetryGo stub (maxRetries - attempt) attempt

/-- Net effect of one `AIService.streamCompletion` call on the breaker:
the resulting breaker state, the number of upstream stub invocations, and
the breaker-level result. -/
structure StreamCallOutcome where
  after : CBState
  stubCalls : Nat
  result : ExecResult
deriving DecidableEq, Repr

/-- Source `AIService.streamCompletion`: the whole retried attempt sequence is
wrapped in a single `this.circuitBreaker.execute(() =>
this.streamWithRetry(...))` call, so the breaker observes one success or
one failure per request; when the breaker fast-fails, the stub is never
invoked. `maxRetries` is `AIService`'s config field (initialized to 3). -/
def streamCompletionStep (cfg : CircuitBreakerConfig) (maxRetries : Nat)
    (s : CBState) (now : Nat) (stub : Nat → Option AIError) :
    StreamCallOutcome :=
  let retry := streamWithRetry stub maxRetries 1
  let out := execute cfg s now retry.1.isNone
  { after := out.after,
    stubCalls := if out.invoked then retry.2 else 0,
    result := out.result }

/-- Upstream stub that throws `e` on every invocation. -/
def alwaysFail (e : AIError) : Nat → Option AIError := fun _ => some e

/-- Run of `n` consecutive `streamCompletion` requests (all at wall-clock
time 0) against a stub that fails every attempt with
`AIUnexpectedErrorException`, with default breaker config and
`maxRetries = 3`: returns the final breaker state and the total number of
stub invocations. -/
def failRun : Nat → CBState × Nat
  | 0 => (CBState.initial, 0)
  | n + 1 =>
    let prev := failRun n
    let out := streamCompletionStep defaultCBConfig 3 prev.1 0
      (alwaysFail (.unexpected 500))
    (out.after, prev.2 + out.stubCalls)

/-- Source `ChatSession` (`chat/interfaces/chat-session.interface.ts`):
`{id, messages, createdAt, updatedAt}`. -/
structure ChatSession where
  id : String
  messages : List Message
  createdAt : Nat
  updatedAt : Nat
deriving DecidableEq, Repr

/-- The `ChatService.sessions` map (`Map<string, ChatSession>`), modelled
as an insertion-ordered association list. -/
abbrev Sessions := List (String × ChatSession)

/-- Source `this.sessions.get(sessionId)`. -/
def lookupSession (sessions : Sessions) (sessionId : String) :
    Option ChatSession :=
  (sessions.find? (fun p => p.1 = sessionId)).map Prod.snd

/-- Source `this.sessions.set(sessionId, session)`: updates the existing entry in
place, or appends a new one (JS `Map` preserves insertion order). -/
def setSession : Sessions → String → ChatSession → Sessions
  | [], sessionId, session => [(sessionId, session)]
  | p :: rest, sessionId, session =>
    if p.1 = sessionId then (sessionId, session) :: rest
    else p :: setSession rest sessionId session

/-- Source `ChatService.createMessage`: builds `{id, role, content, timestamp,
sessionId}`; the `randomUUID()` id and the `new Date()` timestamp are
passed in explicitly. -/
def createMessage (role : MessageRole) (content : String)
    (sessionId : String) (id : String) (now : Nat) : Message :=
  { id := id, role := role, content := content, timestamp := now,
    sessionId := some sessionId }

/-- Terminal outcome of the completion stream a `processMessage` call
subscribes to: completion with the accumulated fragments, or an error
after some (discarded) fragments. -/
inductive StreamOutcome
  | success (fragments : List String)
  | failure (fragments : List String)
deriving DecidableEq, Repr

/-- Return value of `processMessage` relevant to the session store:
the updated map, the actual session id, and the assistant message id. -/
structure ProcessResult where
  sessions : Sessions
  sessionId : String
  messageId : String
deriving DecidableEq, Repr

/-- Source `ChatService.processMessage`: `actualSessionId = sessionId ||
this.createSession()` (JS `||`, so `undefined` and `""` both trigger
`createSession`, which keys a fresh empty session by a new
`randomUUID()`, here `newSessionId`); then `getOrCreateSession` creates
an empty session under `actualSessionId` when absent; the User message
(`createMessage(USER, messageContent, ...)`, no transformation of the
text) is pushed; on stream completion one Assistant message holding the
concatenated fragments is pushed and `updatedAt` is refreshed; on stream
error nothing further is written. The upstream stream's terminal outcome
is passed in as `outcome`; `now` is the call time and `completeTime` the
completion time. -/
def processMessage (sessions : Sessions) (messageContent : String)
    (sessionId : Option String) (newSessionId userMsgId asstMsgId : String)
    (now completeTime : Nat) (outcome : StreamOutcome) : ProcessResult :=
  let step1 : Sessions × String :=
    match sessionId with
    | some s =>
      if s.isEmpty then
        (setSession sessions newSessionId ⟨newSessionId, [], now, now⟩,
          newSessionId)
      else (sessions, s)
    | none =>
      (setSession sessions newSessionId ⟨newSessionId, [], now, now⟩,
        newSessionId)
  let sessions := step1.1
  let actualSessionId := step1.2
  let session :=
    match lookupSession sessions actualSessionId with
    | some s => s
    | none => ⟨actualSessionId, [], now, now⟩
  let userMessage :=
    createMessage .USER messageContent actualSessionId userMsgId now
  let session := { session with messages := session.messages ++ [userMessage] }
  let session :=
    match outcome with
    | .success fragments =>
      let assistantMessage := createMessage .ASSISTANT
        (String.join fragments) actualSessionId asstMsgId completeTime
      { session with messages := session.messages ++ [assistantMessage],
                     updatedAt := completeTime }
    | .failure _ => session
  { sessions := setSession sessions actualSessionId session,
    sessionId := actualSessionId, messageId := asstMsgId }

/-- Spec-side reference definition (for comparison only, not from the
source): the caller's input with leading and trailing whitespace removed,
as the spec's “text=trimmed input” prescribes for the appended User
turn. -/
def trimmedSpec (s : String) : String :=
  ⟨((s.data.dropWhile Char.isWhitespace).reverse.dropWhile
      Char.isWhitespace).reverse⟩

/-! ### Helper lemmas -/

/-- In `OPEN` with a recorded failure time whose cooldown has not yet
elapsed, `shouldAttemptReset` is false. -/
theorem shouldAttemptReset_false (cfg : CircuitBreakerConfig) (s : CBState)
    (now t : Nat) (h2 : s.lastFailureTime = some t)
    (h3 : now < t + cfg.timeout) :
    shouldAttemptReset cfg s now = false := by
  simp [shouldAttemptReset, h2]
  omega

/-- A failing `execute` from `HALF_OPEN` always reaches `onFailure`. -/
theorem execute_halfOpen_failure (cfg : CircuitBreakerConfig) (s : CBState)
    (now : Nat) (h : s.state = .HALF_OPEN) :
    execute cfg s now false =
      { result := .opFailure, invoked := true,
        after := onFailure cfg s now } := by
  simp [execute, h]

/-- Against a stub that throws the same error on every invocation, the
retry loop performs `fuel + 1` invocations and surfaces that error. -/
theorem streamWithRetryGo_alwaysFail (e : AIError) :
    ∀ (fuel attempt : Nat),
      streamWithRetryGo (alwaysFail e) fuel attempt = (some e, fuel + 1) := by
  intro fuel
  induction fuel with
  | zero => intro attempt; rfl
  | succ fuel ih =>
    intro attempt
    simp [streamWithRetryGo, alwaysFail, ih (attempt + 1)]

/-- Fragments emitted by one `executeStream` attempt are all non-empty. -/
theorem emittedFragments_nonempty :
    ∀ chunks, (emittedFragments chunks).all (fun s => !s.isEmpty) = true := by
  intro chunks
  induction chunks with
  | nil => rfl
  | cons c rest ih =>
    simp only [emittedFragments]
    cases hc : c.content with
    | none =>
      cases hf : jsTruthy c.finishReason <;> simp [hf, ih]
    | some s =>
      by_cases hs : s.isEmpty <;>
        cases hf : jsTruthy c.finishReason <;>
          simp [hf, hs, ih, List.all_append]

/-- Folding token costs from an arbitrary accumulator shifts `sumTokens`
by that accumulator. -/
theorem sumTokens_foldl (l : List Message) (a : Nat) :
    l.foldl (fun sum m => sum + estimateTokens m.content) a =
      a + sumTokens l := by
  induction l generalizing a with
  | nil => simp [sumTokens]
  | cons m rest ih =>
    simp only [sumTokens, List.foldl_cons]
    rw [ih, ih]
    omega

/-- The running total of `fitLoop` never exceeds the budget once it is
within it: the loop `break`s before any accumulation would cross it. -/
theorem fitLoop_le (maxT : Nat) :
    ∀ (l : List Message) (total : Nat) (fitted : List Message),
      total ≤ maxT → (fitLoop maxT l total fitted).1 ≤ maxT := by
  intro l
  induction l with
  | nil => intro total fitted h; simpa [fitLoop] using h
  | cons m rest ih =>
    intro total fitted h
    simp only [fitLoop]
    split
    · exact ih total fitted h
    · split
      · simpa using h
      · next hle => exact ih _ _ (by omega)

/-- The running total of `fitLoop` tracks the token sum of the
accumulated message list. -/
theorem fitLoop_sum (maxT : Nat) :
    ∀ (l : List Message) (total : Nat) (fitted : List Message),
      sumTokens fitted = total →
      sumTokens (fitLoop maxT l total fitted).2 =
        (fitLoop maxT l total fitted).1 := by
  intro l
  induction l with
  | nil => intro total fitted h; simpa [fitLoop] using h
  | cons m rest ih =>
    intro total fitted h
    simp only [fitLoop]
    split
    · exact ih total fitted h
    · split
      · simpa using h
      · refine ih _ _ ?_
        simp only [sumTokens, List.foldl_cons]
        rw [sumTokens_foldl]
        omega

/-- Every message `fitLoop` returns comes from its accumulator or its
input list: the loop invents nothing. -/
theorem fitLoop_mem (maxT : Nat) :
    ∀ (l : List Message) (total : Nat) (fitted : List Message)
      (m : Message), m ∈ (fitLoop maxT l total fitted).2 →
      m ∈ fitted ∨ m ∈ l := by
  intro l
  induction l with
  | nil => intro total fitted m hm; simp only [fitLoop] at hm; exact .inl hm
  | cons x rest ih =>
    intro total fitted m hm
    simp only [fitLoop] at hm
    split at hm
    · rcases ih _ _ _ hm with h | h
      · exact .inl h
      · exact .inr (List.mem_cons_of_mem x h)
    · split at hm
      · exact .inl hm
      · rcases ih _ _ _ hm with h | h
        · rcases List.mem_cons.mp h with h | h
          · exact .inr (h ▸ List.mem_cons_self x rest)
          · exact .inl h
        · exact .inr (List.mem_cons_of_mem x h)

/-- Looking up a key right after `setSession` on that key returns the
stored session. -/
theorem lookup_setSession_self :
    ∀ (sessions : Sessions) (k : String) (v : ChatSession),
      lookupSession (setSession sessions k v) k = some v := by
  intro sessions k v
  induction sessions with
  | nil => simp [setSession, lookupSession]
  | cons p rest ih =>
    by_cases hpk : p.1 = k
    · simp [setSession, hpk, lookupSession, List.find?_cons]
    · simp only [setSession, if_neg hpk]
      simpa [lookupSession, List.find?_cons, hpk] using ih

/-- Net effect of `processMessage` on an existing session keyed by a
nonempty id: the map entry is replaced by the same session with the User
message appended, plus — only when the stream completes — the Assistant
message and a refreshed `updatedAt`. -/
theorem processMessage_existing (sessions : Sessions) (content : String)
    (s newSessionId uid aid : String) (now ct : Nat)
    (outcome : StreamOutcome) (sess : ChatSession)
    (h1 : s.isEmpty = false) (h2 : lookupSession sessions s = some sess) :
    processMessage sessions content (some s) newSessionId uid aid now ct
        outcome =
      { sessions := setSession sessions s
          (match outcome with
            | .success frags =>
              { sess with
                messages := (sess.messages ++
                    [createMessage .USER content s uid now]) ++
                  [createMessage .ASSISTANT (String.join frags) s aid ct],
                updatedAt := ct }
            | .failure _ =>
              { sess with
                messages := sess.messages ++
                  [createMessage .USER content s uid now] }),
        sessionId := s, messageId := aid } := by
  cases outcome <;> simp [processMessage, h1, h2]

/-- Net effect of `processMessage` when the nonempty id names no existing
session: `getOrCreateSession` creates an empty session keyed by that id,
and the messages are appended to it. -/
theorem processMessage_new (sessions : Sessions) (content : String)
    (s newSessionId uid aid : String) (now ct : Nat)
    (outcome : StreamOutcome)
    (h1 : s.isEmpty = false) (h2 : lookupSession sessions s = none) :
    processMessage sessions content (some s) newSessionId uid aid now ct
        outcome =
      { sessions := setSession sessions s
          (match outcome with
            | .success frags =>
              { id := s,
                messages := [createMessage .USER content s uid now,
                  createMessage .ASSISTANT (String.join frags) s aid ct],
                createdAt := now, updatedAt := ct }
            | .failure _ =>
              { id := s,
                messages := [createMessage .USER content s uid now],
                createdAt := now, updatedAt := now }),
        sessionId := s, messageId := aid } := by
  cases outcome <;> simp [processMessage, h1, h2]

/-! ### Claim theorems -/

/-- C1, counterexample. The claim says each retried upstream attempt
passes through `CircuitBreaker.execute` individually, so the failure
count rises once per failed attempt and, with an always-failing stub,
the breaker is `OPEN` after exactly 5 stub invocations. In the code the
whole retry loop sits inside one `execute` call: after one
`streamCompletion` request the stub has been invoked 3 times (all
`maxRetries` attempts) yet `failureCount` is 1 — not 3 — and the state
is still `CLOSED`; when the breaker does open (after the 5th request),
the stub has been invoked 15 times, not 5. -/
theorem c1_counterexample :
    (failRun 1).2 = 3 ∧ (failRun 1).1.failureCount = 1 ∧
    (failRun 1).1.state = .CLOSED ∧
    (failRun 5).1.state = .OPEN ∧ (failRun 5).2 = 15 := by
  decide

/-- C1, amended. Each `streamCompletion` request passes through
`CircuitBreaker.execute` exactly once, wrapping the whole retried
attempt sequence, so the breaker's consecutive-failure count increases
once per failed request: if the upstream stub fails every attempt, after
5 failed requests (each invoking the stub `maxRetries = 3` times, 15
invocations in total) the breaker state is `OPEN`, and the next request
fast-fails without invoking the stub again (total stays 15). -/
theorem c1_amended :
    (failRun 5).1.state = .OPEN ∧ (failRun 5).1.failureCount = 5 ∧
    (failRun 5).2 = 15 ∧
    (streamCompletionStep defaultCBConfig 3 (failRun 5).1 0
      (alwaysFail (.unexpected 500))).result = .fastFail 5 ∧
    (streamCompletionStep defaultCBConfig 3 (failRun 5).1 0
      (alwaysFail (.unexpected 500))).stubCalls = 0 ∧
    (failRun 6).2 = 15 := by
  decide

/-- C2, counterexample. The claim says any single failed `execute` while
`HALF_OPEN` transitions the breaker back to `OPEN`, including after one
or more interleaved successes. In the code `onFailure` reopens only when
the incremented `failureCount` reaches `failureThreshold`; a success in
`HALF_OPEN` zeroes `failureCount`, so the subsequent failure leaves the
breaker in `HALF_OPEN`: open the breaker with 5 failures at time 0, let
one call succeed at time 60000 (entering `HALF_OPEN`), then fail — the
state after that failed call is `HALF_OPEN`, not `OPEN`. -/
theorem c2_counterexample :
    (cbRun defaultCBConfig
      [(0, false), (0, false), (0, false), (0, false), (0, false),
        (60000, true)]).state = .HALF_OPEN ∧
    (execute defaultCBConfig
      (cbRun defaultCBConfig
        [(0, false), (0, false), (0, false), (0, false), (0, false),
          (60000, true)]) 60000 false).result = .opFailure ∧
    (execute defaultCBConfig
      (cbRun defaultCBConfig
        [(0, false), (0, false), (0, false), (0, false), (0, false),
          (60000, true)]) 60000 false).after.state = .HALF_OPEN := by
  decide

/-- C2, amended. A failed `execute` while `HALF_OPEN` resets the
consecutive-success counter to 0 and increments the failure counter, but
transitions back to `OPEN` only when the incremented failure count
reaches `failureThreshold`; otherwise (in particular right after a
success in `HALF_OPEN`, which zeroes the failure count) the breaker
stays `HALF_OPEN`. -/
theorem c2_amended (cfg : CircuitBreakerConfig) (s : CBState) (now : Nat)
    (h : s.state = .HALF_OPEN) :
    (execute cfg s now false).result = .opFailure ∧
    (execute cfg s now false).after =
      { state := if cfg.failureThreshold ≤ s.failureCount + 1 then
          .OPEN else .HALF_OPEN,
        failureCount := s.failureCount + 1, successCount := 0,
        lastFailureTime := some now } := by
  obtain ⟨st, fc, sc, lt⟩ := s
  simp only [CBState.state] at h
  subst h
  rw [execute_halfOpen_failure cfg ⟨.HALF_OPEN, fc, sc, lt⟩ now rfl]
  refine ⟨rfl, ?_⟩
  simp only [onFailure, ge_iff_le]
  split <;> rfl

/-- C2, witness for the amended theorem: in `HALF_OPEN` after one success
(failure count 0), a failure at time 5 leaves the breaker `HALF_OPEN`
with failure count 1 and success count 0. -/
theorem c2_amended_witness :
    (execute defaultCBConfig ⟨.HALF_OPEN, 0, 1, some 0⟩ 5 false).result =
      .opFailure ∧
    (execute defaultCBConfig ⟨.HALF_OPEN, 0, 1, some 0⟩ 5 false).after =
      { state := if defaultCBConfig.failureThreshold ≤ 0 + 1 then
          .OPEN else .HALF_OPEN,
        failureCount := 0 + 1, successCount := 0,
        lastFailureTime := some 5 } :=
  c2_amended defaultCBConfig ⟨.HALF_OPEN, 0, 1, some 0⟩ 5 rfl

/-- C6, confirmed. An `execute` call while the breaker is `OPEN`,
strictly before `lastFailureTime + timeout`, does not invoke the
protected operation at all (the result is independent of the operation's
outcome `opOk`, and `invoked = false`), rejects with
`CircuitBreakerOpenException` carrying the current failure count, and
leaves the stored state and counters unchanged. -/
theorem c6_open_fastFail (cfg : CircuitBreakerConfig) (s : CBState)
    (now t : Nat) (opOk : Bool) (h1 : s.state = .OPEN)
    (h2 : s.lastFailureTime = some t) (h3 : now < t + cfg.timeout) :
    execute cfg s now opOk =
      { result := .fastFail s.failureCount, invoked := false,
        after := s } := by
  have hr := shouldAttemptReset_false cfg s now t h2 h3
  simp [execute, h1, hr]

/-- C6, witness: an open breaker with 5 failures recorded at time 0,
probed at time 59999 (one millisecond before the 60000 ms cooldown),
fast-fails carrying failure count 5 and is left unchanged. -/
theorem c6_open_fastFail_witness :
    execute defaultCBConfig ⟨.OPEN, 5, 0, some 0⟩ 59999 true =
      { result := .fastFail 5, invoked := false,
        after := ⟨.OPEN, 5, 0, some 0⟩ } :=
  c6_open_fastFail defaultCBConfig ⟨.OPEN, 5, 0, some 0⟩ 59999 0 true rfl
    rfl (by decide)

/-- C4, counterexample. The claim says a first attempt failing with an
auth (401-equivalent) error is not retried: the upstream is invoked
exactly once. In the code `streamWithRetry` catches every error alike
and retries while `attempt < maxRetries`: with a stub that throws the
401-mapped `AIAuthenticationException` on every attempt, the upstream is
invoked 3 times — not once — before the error surfaces. -/
theorem c4_counterexample :
    handleOpenAIError (some 401) = .auth ∧
    streamWithRetry (alwaysFail (handleOpenAIError (some 401))) 3 1 =
      (some .auth, 3) ∧
    (streamCompletionStep defaultCBConfig 3 CBState.initial 0
      (alwaysFail .auth)).stubCalls = 3 := by
  decide

/-- C4, amended. Auth errors receive no special treatment in the retry
loop: for every error kind `e` and every `maxRetries ≥ 1`, a stub that
always throws `e` is invoked exactly `maxRetries` times and `e` is
surfaced only after retries are exhausted. -/
theorem c4_amended (e : AIError) (maxRetries : Nat)
    (h : 1 ≤ maxRetries) :
    streamWithRetry (alwaysFail e) maxRetries 1 = (some e, maxRetries) := by
  unfold streamWithRetry
  rw [streamWithRetryGo_alwaysFail]
  congr 1
  omega

/-- C4, witness for the amended theorem at the 401-mapped auth error and
the service's configured `maxRetries = 3`. -/
theorem c4_amended_witness :
    1 ≤ 3 ∧ streamWithRetry (alwaysFail .auth) 3 1 = (some .auth, 3) :=
  ⟨by decide, c4_amended .auth 3 (by decide)⟩

/-- C10, confirmed. Every fragment observed on the observable returned
by `streamCompletion` — the concatenation over retried attempts of the
fragments each `executeStream` attempt emits — is a non-empty string:
chunks whose `delta.content` is absent or empty are never forwarded, so
end-of-stream can only be signaled by completion, never by an
empty-text fragment. -/
theorem c10_fragments_nonempty (attempts : List (List StreamChunk)) :
    (streamEmitted attempts).all (fun s => !s.isEmpty) = true := by
  induction attempts with
  | nil => rfl
  | cons a rest ih =>
    simp only [streamEmitted, List.map_cons, List.flatten_cons,
      List.all_append]
    simp only [streamEmitted] at ih
    simp [emittedFragments_nonempty a, ih]

/-- C3, counterexample. The claim says the context-fit operation always
places one synthesized System turn first in its result, so fitting an
empty turn list yields exactly one turn. `AIService.fitToContextWindow`
synthesizes nothing — it only carries over a system message already
present in its input (the system prompt is injected by
`ChatService.buildConversationContext`, a different function) — so
fitting the empty list yields the empty list, not a one-element list. -/
theorem c3_counterexample :
    fitToContextWindow [] 4000 = [] ∧
    (fitToContextWindow [] 4000).length ≠ 1 := by
  decide

/-- C3, amended. `fitToContextWindow` never synthesizes a System turn:
fitting an empty turn list yields the empty list (for every budget), and
every turn in any fit result is drawn from the input list. -/
theorem c3_amended :
    (∀ budget, fitToContextWindow [] budget = []) ∧
    (∀ (messages : List Message) (budget : Nat) (m : Message),
      m ∈ fitToContextWindow messages budget → m ∈ messages) := by
  constructor
  · intro budget; rfl
  · intro messages budget m hm
    unfold fitToContextWindow at hm
    cases hfind : messages.find? (fun x => x.role = .SYSTEM) with
    | none =>
      rw [hfind] at hm
      rcases fitLoop_mem budget messages.reverse 0 [] m hm with h | h
      · simp at h
      · exact List.mem_reverse.mp h
    | some sys =>
      rw [hfind] at hm
      rcases fitLoop_mem budget messages.reverse
          (estimateTokens sys.content) [sys] m hm with h | h
      · have hms : m = sys := by simpa using h
        exact hms ▸ List.mem_of_find?_eq_some hfind
      · exact List.mem_reverse.mp h

/-- C3, witness for the amended theorem: fitting the empty list with
budget 100 yields the empty list, and the single user turn kept when
fitting a one-turn list is indeed drawn from that input list. -/
theorem c3_amended_witness :
    fitToContextWindow [] 100 = [] ∧
    (⟨"1", MessageRole.USER, "hi", 0, none⟩ : Message) ∈
      [(⟨"1", MessageRole.USER, "hi", 0, none⟩ : Message)] :=
  ⟨c3_amended.1 100,
    c3_amended.2 [⟨"1", MessageRole.USER, "hi", 0, none⟩] 100
      ⟨"1", MessageRole.USER, "hi", 0, none⟩ (by decide)⟩

/-- C7, counterexample. The claim says the fit result's total estimated
token cost never exceeds the budget, including when a system turn is
present. A system message is pushed before the budget is ever consulted:
with one system message of 8 characters (estimated cost 2) and budget 1,
the result's total cost is 2 > 1. -/
theorem c7_counterexample :
    sumTokens (fitToContextWindow
      [⟨"1", MessageRole.SYSTEM, "12345678", 0, none⟩] 1) = 2 ∧
    ¬ (2 ≤ 1) := by
  decide

/-- C7, amended. Whenever the first system message of the input (if any)
has estimated cost within the budget — in particular whenever the input
contains no system message — the fit result's total estimated token cost
(`ceil(charLength / 4)` per turn) is at most the budget; only a system
message whose own cost already exceeds the budget can break the bound,
since it is included unconditionally. -/
theorem c7_amended (messages : List Message) (budget : Nat)
    (h : ∀ sysm, messages.find? (fun x => x.role = .SYSTEM) = some sysm →
      estimateTokens sysm.content ≤ budget) :
    sumTokens (fitToContextWindow messages budget) ≤ budget := by
  unfold fitToContextWindow
  cases hfind : messages.find? (fun x => x.role = .SYSTEM) with
  | none =>
    rw [fitLoop_sum budget messages.reverse 0 [] rfl]
    exact fitLoop_le budget messages.reverse 0 [] (Nat.zero_le _)
  | some sysm =>
    have hle := h sysm hfind
    have h0 : sumTokens [sysm] = estimateTokens sysm.content := by
      simp [sumTokens]
    rw [fitLoop_sum budget messages.reverse (estimateTokens sysm.content)
      [sysm] h0]
    exact fitLoop_le budget messages.reverse (estimateTokens sysm.content)
      [sysm] hle

/-- C7, witness for the amended theorem: one system message of cost 1 and
one user message of cost 1 fit a budget of 5 with total cost at most 5. -/
theorem c7_amended_witness :
    sumTokens (fitToContextWindow
      [⟨"1", MessageRole.SYSTEM, "abcd", 0, none⟩,
        ⟨"2", MessageRole.USER, "hi", 1, none⟩] 5) ≤ 5 :=
  c7_amended
    [⟨"1", MessageRole.SYSTEM, "abcd", 0, none⟩,
      ⟨"2", MessageRole.USER, "hi", 1, none⟩] 5
    (fun sysm hs => by
      have hsys : sysm = ⟨"1", MessageRole.SYSTEM, "abcd", 0, none⟩ := by
        have := hs.symm.trans (by decide :
          ([⟨"1", MessageRole.SYSTEM, "abcd", 0, none⟩,
            ⟨"2", MessageRole.USER, "hi", 1, none⟩] : List Message).find?
            (fun x => x.role = .SYSTEM) =
          some ⟨"1", MessageRole.SYSTEM, "abcd", 0, none⟩)
        exact Option.some.inj this
      rw [hsys]
      decide)

/-- C5, confirmed. When the completion stream ends in an error, no
Assistant turn is appended: the session stored after `processMessage`
equals the pre-call session with exactly the one User turn appended
(same record otherwise), and in particular `updatedAt` — the
last-activity timestamp — is unchanged (second conjunct). -/
theorem c5_error_keeps_session (sessions : Sessions) (content : String)
    (s newSessionId uid aid : String) (now ct : Nat)
    (frags : List String) (sess : ChatSession)
    (h1 : s.isEmpty = false) (h2 : lookupSession sessions s = some sess) :
    lookupSession (processMessage sessions content (some s) newSessionId
        uid aid now ct (.failure frags)).sessions s =
      some { sess with
        messages := sess.messages ++
          [createMessage .USER content s uid now] } ∧
    ({ sess with
        messages := sess.messages ++
          [createMessage .USER content s uid now] } :
      ChatSession).updatedAt = sess.updatedAt := by
  refine ⟨?_, rfl⟩
  rw [processMessage_existing sessions content s newSessionId uid aid now
    ct (.failure frags) sess h1 h2]
  exact lookup_setSession_self sessions s _

/-- C5, witness: a failed stream on a concrete one-session store leaves
that session holding only its prior turns plus the User turn, with
`updatedAt` untouched. -/
theorem c5_error_keeps_session_witness :
    lookupSession (processMessage [("s1", ⟨"s1", [], 0, 0⟩)] "hello"
        (some "s1") "n" "u" "a" 5 9 (.failure ["x"])).sessions "s1" =
      some { id := "s1",
             messages := [] ++ [createMessage .USER "hello" "s1" "u" 5],
             createdAt := 0, updatedAt := 0 } ∧
    ({ id := "s1",
       messages := [] ++ [createMessage .USER "hello" "s1" "u" 5],
       createdAt := 0, updatedAt := 0 } : ChatSession).updatedAt = 0 :=
  c5_error_keeps_session [("s1", ⟨"s1", [], 0, 0⟩)] "hello" "s1" "n" "u"
    "a" 5 9 ["x"] ⟨"s1", [], 0, 0⟩ (by decide) (by decide)

/-- C8, counterexample. The claim says the appended User turn's text is
the caller's input with leading and trailing whitespace removed. No code
on the server path (`ChatGateway.handleMessage` →
`ChatService.processMessage` → `createMessage`) trims: with input
`" hi "` the stored User turn's content is `" hi "`, which differs from
the trimmed input `"hi"`. -/
theorem c8_counterexample :
    (lookupSession (processMessage [] " hi " (some "s1") "n" "u" "a" 5 9
        (.failure [])).sessions "s1").map
      (fun sess => sess.messages.map Message.content) = some [" hi "] ∧
    trimmedSpec " hi " = "hi" ∧ (" hi " : String) ≠ "hi" := by
  decide

/-- C8, amended. The User turn appended by `processMessage` has text
equal to the caller's input verbatim — no whitespace is removed: the
message at the first appended position is exactly
`createMessage USER content …`, whose `content` field is the unmodified
input (last conjunct). -/
theorem c8_user_turn_verbatim (sessions : Sessions) (content : String)
    (s newSessionId uid aid : String) (now ct : Nat)
    (outcome : StreamOutcome) (sess : ChatSession)
    (h1 : s.isEmpty = false) (h2 : lookupSession sessions s = some sess) :
    ((lookupSession (processMessage sessions content (some s)
        newSessionId uid aid now ct outcome).sessions s).bind
      (fun x => x.messages[sess.messages.length]?)) =
      some (createMessage .USER content s uid now) ∧
    (createMessage .USER content s uid now).content = content := by
  refine ⟨?_, rfl⟩
  rw [processMessage_existing sessions content s newSessionId uid aid now
    ct outcome sess h1 h2]
  rw [lookup_setSession_self sessions s _]
  cases outcome with
  | success frags =>
    simp only [Option.some_bind]
    rw [List.getElem?_append_left (by simp)]
    exact List.getElem?_concat_length _ _
  | failure frags =>
    simp only [Option.some_bind]
    exact List.getElem?_concat_length _ _

/-- C8, witness for the amended theorem: with input `" hi "` (note the
whitespace) the turn appended at position 0 of the empty session is the
untrimmed `createMessage USER " hi " …`. -/
theorem c8_user_turn_verbatim_witness :
    ((lookupSession (processMessage [("s1", ⟨"s1", [], 0, 0⟩)] " hi "
        (some "s1") "n" "u" "a" 5 9 (.failure [])).sessions "s1").bind
      (fun x => x.messages[([] : List Message).length]?)) =
      some (createMessage .USER " hi " "s1" "u" 5) ∧
    (createMessage .USER " hi " "s1" "u" 5).content = " hi " :=
  c8_user_turn_verbatim [("s1", ⟨"s1", [], 0, 0⟩)] " hi " "s1" "n" "u"
    "a" 5 9 (.failure []) ⟨"s1", [], 0, 0⟩ (by decide) (by decide)

/-- C9, counterexample. The claim says every supplied sessionId string
that names no existing session gets a session keyed by exactly that id.
`processMessage` computes `sessionId || this.createSession()`, and the
empty string is falsy in JS: supplying `""` creates a session keyed by a
fresh `randomUUID()` instead, so afterwards the map does not contain the
caller-supplied id `""`. -/
theorem c9_counterexample :
    lookupSession (processMessage [] "x" (some "") "fresh" "u" "a" 5 9
        (.failure [])).sessions "" = none ∧
    (processMessage [] "x" (some "") "fresh" "u" "a" 5 9
        (.failure [])).sessionId = "fresh" := by
  decide

/-- C9, amended. For every nonempty supplied sessionId naming no
existing session, `processMessage` silently creates a session keyed by
exactly that id and appends the User turn to it, so after the call the
session map contains that id (a session-not-found error is never
raised). -/
theorem c9_creates_supplied_id (sessions : Sessions) (content : String)
    (s newSessionId uid aid : String) (now ct : Nat)
    (frags : List String)
    (h1 : s.isEmpty = false) (h2 : lookupSession sessions s = none) :
    (processMessage sessions content (some s) newSessionId uid aid now ct
        (.failure frags)).sessionId = s ∧
    lookupSession (processMessage sessions content (some s) newSessionId
        uid aid now ct (.failure frags)).sessions s =
      some { id := s,
             messages := [createMessage .USER content s uid now],
             createdAt := now, updatedAt := now } := by
  rw [processMessage_new sessions content s newSessionId uid aid now ct
    (.failure frags) h1 h2]
  exact ⟨rfl, lookup_setSession_self sessions s _⟩

/-- C9, witness: supplying the unseen nonempty id `"mine"` on an empty
store yields a session keyed by `"mine"` holding the User turn. -/
theorem c9_creates_supplied_id_witness :
    (processMessage [] "hi" (some "mine") "fresh" "u" "a" 5 9
        (.failure [])).sessionId = "mine" ∧
    lookupSession (processMessage [] "hi" (some "mine") "fresh" "u" "a"
        5 9 (.failure [])).sessions "mine" =
      some { id := "mine",
             messages := [createMessage .USER "hi" "mine" "u" 5],
             createdAt := 5, updatedAt := 5 } :=
  c9_creates_supplied_id [] "hi" "mine" "fresh" "u" "a" 5 9 []
    (by decide) (by decide)

end AssistChat
